import Mathlib

/-!
Shallow embedding of the `farmer_harvest` game core (src/Game.js, src/Utils.js,
src/BaseEntity.js, src/Crop.js, src/Obstacle.js, the Farmer class in
src/unnamed/part_001, the PowerUp module whose source is appended in
src/main_basefile.js after the document separator, and the input adapter),
over ℚ for JS numbers.

Host-environment effects are modelled as explicit inputs threaded through an
`Env` record:
  - `Math.random()` call sites become oracle streams keyed by the spawn / entity
    index consumed at that call site within one update step;
  - `Math.cos` / `Math.sin` / `Math.PI` (external math library) become
    unconstrained function/constant parameters;
  - `performance.now() / 1000` becomes `Env.now`;
  - the `Input` key set becomes the four held-key booleans.
Rendering, the DOM/UI output sinks (`syncUI`, `ui.*.textContent`), the canvas,
and sprite loading are write-only adapters outside the simulation core and are
omitted, exactly as the spec scopes them out.

The three `while (accum >= every)` spawn loops of `Game.update` have no
termination guarantee in the source when an interval is nonpositive, so they
are embedded as the fuelled loop `drain`; `Game.update` takes the fuel as an
explicit argument, and termination is expressed as fuel-independence of the
result beyond an explicit bound.
-/

namespace FarmerHarvest

/-- Base `Entity` class from src/BaseEntity.js: position, size, and the
`dead` flag (the `color` cosmetic field of some subclasses is render-only). -/
structure Entity where
  x : ℚ
  y : ℚ
  w : ℚ
  h : ℚ
  dead : Bool
deriving DecidableEq

/-- World width constant from src/Utils.js. -/
def WIDTH : ℚ := 900

/-- World height constant from src/Utils.js. -/
def HEIGHT : ℚ := 540

/-- Grid tile size constant from src/Utils.js. -/
def TILE : ℚ := 30

/-- The `clamp` helper from src/Utils.js: `Math.min(hi, Math.max(lo, v))`. -/
def clamp (v lo hi : ℚ) : ℚ := min hi (max lo v)

/-- The `aabb` helper from src/Utils.js:
`a.x < b.x + b.w && a.x + a.w > b.x && a.y < b.y + b.h && a.y + a.h > b.y`. -/
def aabb (a b : Entity) : Bool :=
  decide (a.x < b.x + b.w) && decide (a.x + a.w > b.x) &&
  decide (a.y < b.y + b.h) && decide (a.y + a.h > b.y)

/-- The four directional key states sampled from the `Input` adapter
(src/input.js): whether each arrow key is currently held. -/
structure Input where
  left : Bool
  right : Bool
  up : Bool
  down : Bool
deriving DecidableEq

/-- JS boolean-to-number coercion used in `(R - L) * this.speed`. -/
def keyVal (b : Bool) : ℚ := if b then 1 else 0

/-- Host-environment inputs for one `Game.update` invocation (see the module
docstring): oracle streams for every `Math.random()` call site, the external
math library functions, the clock, and the sampled input keys. -/
structure Env where
  now : ℚ
  input : Input
  cosFn : ℚ → ℚ
  sinFn : ℚ → ℚ
  piVal : ℚ
  cropPos : ℕ → ℚ × ℚ
  cropTypeR : ℕ → ℚ
  cropSwayR : ℕ → ℚ
  puPos : ℕ → ℚ × ℚ
  puAngleR : ℕ → ℚ
  crowPos : ℕ → ℚ × ℚ
  crowInitV : ℕ → ℚ × ℚ
  crowInitAngleR : ℕ → ℚ
  crowTurnR : ℕ → ℚ × ℚ
  scarePos : ℕ → ℚ × ℚ

/-- The `Game.State` enumeration from src/Game.js. -/
inductive GState where
  | MENU
  | PLAYING
  | PAUSED
  | GAME_OVER
  | WIN
deriving DecidableEq

/-- The `Farmer` class (src/unnamed/part_001): player entity with speed,
velocity, boost bookkeeping, and the sprite-animation counters that
`Farmer.update` mutates. The sprite image itself is render-only and omitted. -/
structure Farmer extends Entity where
  speed : ℚ
  vx : ℚ
  vy : ℚ
  baseSpeed : ℚ
  speedBoostEnd : ℚ
  currentRow : ℕ
  currentFrame : ℕ
  frameTime : ℚ
  frameDuration : ℚ
  cellSize : ℚ
  isMoving : Bool
deriving DecidableEq

/-- The `Farmer` constructor: `super(x, y, 34, 34)`, speed 260, zero velocity,
no boost, idle animation state. -/
def Farmer.init (x y : ℚ) : Farmer :=
  { x := x, y := y, w := 34, h := 34, dead := false,
    speed := 260, vx := 0, vy := 0, baseSpeed := 260, speedBoostEnd := 0,
    currentRow := 0, currentFrame := 0, frameTime := 0, frameDuration := 1/10,
    cellSize := 32, isMoving := false }

/-- `Farmer.handleInput`: velocity from held keys (JS coerces booleans to 0/1),
and the animation direction/idle bookkeeping. -/
def Farmer.handleInput (f : Farmer) (inp : Input) : Farmer :=
  let vx := (keyVal inp.right - keyVal inp.left) * f.speed
  let vy := (keyVal inp.down - keyVal inp.up) * f.speed
  if vx ≠ 0 ∨ vy ≠ 0 then
    let row : ℕ :=
      if |vy| > |vx| then (if vy > 0 then 0 else 3)
      else (if vx > 0 then 2 else 1)
    { f with vx := vx, vy := vy, isMoving := true, currentRow := row }
  else
    { f with vx := vx, vy := vy, isMoving := false, currentFrame := 0 }

/-- `Farmer.applySpeedBoost(duration)`: speed becomes base × 1.5 and the boost
expiry becomes `performance.now()/1000 + duration`. -/
def Farmer.applySpeedBoost (now duration : ℚ) (f : Farmer) : Farmer :=
  { f with speed := f.baseSpeed * (3/2), speedBoostEnd := now + duration }

/-- The `Scarecrow` class (src/Obstacle.js): static obstacle. -/
structure Scarecrow extends Entity
deriving DecidableEq

/-- The `Scarecrow` constructor: `super(x, y, 26, 46)`. -/
def Scarecrow.init (x y : ℚ) : Scarecrow :=
  { x := x, y := y, w := 26, h := 46, dead := false }

/-- `Farmer.update(dt, game)`: reset an expired speed boost, advance the walk
animation, move by `velocity × dt` clamped to world bounds per axis, and revert
both axes if the candidate AABB hits any static obstacle. -/
def Farmer.update (f₀ : Farmer) (dt now : ℚ) (obstacles : List Scarecrow) : Farmer :=
  let f1 := if f₀.speedBoostEnd < now then { f₀ with speed := f₀.baseSpeed } else f₀
  let f2 :=
    if f1.isMoving then
      let ft := f1.frameTime + dt
      if ft ≥ f1.frameDuration then
        { f1 with frameTime := 0, currentFrame := (f1.currentFrame + 1) % 4 }
      else
        { f1 with frameTime := ft }
    else f1
  let nx := clamp (f2.x + f2.vx * dt) 0 (WIDTH - f2.w)
  let ny := clamp (f2.y + f2.vy * dt) 0 (HEIGHT - f2.h)
  let cand := { f2 with x := nx, y := ny }
  if obstacles.any (fun o => aabb cand.toEntity o.toEntity) then f2 else cand

/-- The crop type tags from `Game.spawnCrop` / the `Crop` constructor. -/
inductive CropType where
  | wheat
  | pumpkin
  | golden_apple
deriving DecidableEq

/-- The per-type point table `{ wheat: 1, pumpkin: 3, golden_apple: 5 }` from
the `Crop` constructor (src/Crop.js). -/
def CropType.pointsOf : CropType → ℤ
  | .wheat => 1
  | .pumpkin => 3
  | .golden_apple => 5

/-- The `Crop` class (src/Crop.js): collectible with a type tag, point value,
and the sway animation phase. -/
structure Crop extends Entity where
  ctype : CropType
  points : ℤ
  sway : ℚ
deriving DecidableEq

/-- The `Crop` constructor: `super(x, y, 20, 26)`, point value from the fixed
table, initial sway phase `Math.random() * Math.PI * 2` (the random value is
supplied by the spawn site). -/
def Crop.init (x y : ℚ) (t : CropType) (sway0 : ℚ) : Crop :=
  { x := x, y := y, w := 20, h := 26, dead := false,
    ctype := t, points := t.pointsOf, sway := sway0 }

/-- `Crop.update(dt, game)`: `this.sway += dt * 2` (idle animation only). -/
def Crop.update (dt : ℚ) (c : Crop) : Crop :=
  { c with sway := c.sway + dt * 2 }

/-- The `PowerUp` class (its module source is appended in
src/main_basefile.js after the document separator): speed-boost collectible
with a rotation angle used only for drawing. The gameplay effect on pickup
(`applySpeedBoost(5)`) lives in src/Game.js and is embedded there. -/
structure PowerUp extends Entity where
  angle : ℚ
deriving DecidableEq

/-- The `PowerUp` constructor: `super(x, y, 16, 16)` and initial angle
`Math.random() * Math.PI * 2` (the random value is supplied by the spawn
site). -/
def PowerUp.init (x y rangle pi : ℚ) : PowerUp :=
  { x := x, y := y, w := 16, h := 16, dead := false,
    angle := rangle * pi * 2 }

/-- `PowerUp.update(dt, game)`: `this.angle += dt * 3` (rotation animation
only; the game argument is unused). -/
def PowerUp.update (dt : ℚ) (p : PowerUp) : PowerUp :=
  { p with angle := p.angle + dt * 3 }

/-- The `Crow` class (src/Obstacle.js): mobile obstacle with a heading angle
and fixed max speed 120. -/
structure Crow extends Entity where
  vx : ℚ
  vy : ℚ
  maxSpeed : ℚ
  angle : ℚ
deriving DecidableEq

/-- The `Crow` constructor: `super(x, y, 20, 20)`, random initial velocity
`(rand - 0.5) * 100` per axis, `maxSpeed = 120`, random initial angle
`rand * π * 2` (random values supplied by the spawn site). -/
def Crow.init (x y rvx rvy rangle pi : ℚ) : Crow :=
  { x := x, y := y, w := 20, h := 20, dead := false,
    vx := (rvx - 1/2) * 100, vy := (rvy - 1/2) * 100,
    maxSpeed := 120, angle := rangle * pi * 2 }

/-- `Crow.update(dt, game)`: velocity from `cos/sin` of the heading, move, a
1%-probability random heading perturbation, then reflect the heading off world
edges; the trailing `if (this.dead) return;` of the source is a no-op. The two
`Math.random()` values of this call are `r1` (the 0.01 check) and `r2` (the
perturbation). -/
def Crow.update (env : Env) (dt r1 r2 : ℚ) (c : Crow) : Crow :=
  let vx := env.cosFn c.angle * c.maxSpeed
  let vy := env.sinFn c.angle * c.maxSpeed
  let x := c.x + vx * dt
  let y := c.y + vy * dt
  let a1 := if r1 < 1/100 then c.angle + (r2 - 1/2) * env.piVal else c.angle
  let a2 := if x ≤ 0 ∨ x ≥ WIDTH - c.w then env.piVal - a1 else a1
  let a3 := if y ≤ 0 ∨ y ≥ HEIGHT - c.h then -a2 else a2
  { c with x := x, y := y, vx := vx, vy := vy, angle := a3 }

/-- One per-level configuration record from `config.json` / the built-in
fallback (`goal`, `timeLimit`, `spawnEvery`, `crowSpawnEvery`,
`powerUpSpawnEvery`, `numScarecrows`). -/
structure LevelCfg where
  goal : ℤ
  timeLimit : ℚ
  spawnEvery : ℚ
  crowSpawnEvery : ℚ
  powerUpSpawnEvery : ℚ
  numScarecrows : ℕ
deriving DecidableEq

/-- The built-in fallback configuration hard-coded in `Game.start`
(src/Game.js): goals 15/20/25, time limits 60/55/50, spawn intervals
0.8/0.6/0.4, crow intervals 5/4/3, power-up intervals 10/8/6, scarecrow
counts 2/3/4. The `config.levels` JSON array is embedded as a 0-based index
function. -/
def defaultLevels : ℕ → LevelCfg
  | 0 => ⟨15, 60, 4/5, 5, 10, 2⟩
  | 1 => ⟨20, 55, 3/5, 4, 8, 3⟩
  | _ => ⟨25, 50, 2/5, 3, 6, 4⟩

/-- The `Game` instance state that the simulation core reads and writes
(src/Game.js constructor fields). Host adapters (canvas, ctx, ui, input
listeners, lastTime of the RAF driver) are outside the update step and
omitted; `config.levels` is embedded as the 0-based index function `levels`. -/
structure Game where
  state : GState
  level : ℕ
  levels : ℕ → LevelCfg
  requiredScore : ℤ
  maxTime : ℚ
  player : Farmer
  crops : List Crop
  obstacles : List Scarecrow
  powerUps : List PowerUp
  crows : List Crow
  timeLeft : ℚ
  spawnEvery : ℚ
  accumSpawn : ℚ
  powerUpSpawnEvery : ℚ
  accumPowerUpSpawn : ℚ
  crowSpawnEvery : ℚ
  accumCrowSpawn : ℚ
  score : ℤ
  goal : ℤ

/-- The grid-aligned random coordinate expression used by every spawn site:
`Math.floor(Math.random() * ((WIDTH - 2*TILE) / TILE)) * TILE + TILE`. -/
def gridX (r : ℚ) : ℚ := ((⌊r * ((WIDTH - 2 * TILE) / TILE)⌋ : ℤ) : ℚ) * TILE + TILE

/-- Same grid expression on the vertical axis, with `HEIGHT`. -/
def gridY (r : ℚ) : ℚ := ((⌊r * ((HEIGHT - 2 * TILE) / TILE)⌋ : ℤ) : ℚ) * TILE + TILE

/-- The type pick `types[Math.floor(Math.random() * 3)]` in `Game.spawnCrop`;
for `Math.random()` values in [0, 1) the index is 0, 1, or 2. An out-of-range
index would make the JS type tag `undefined` with point value falling back to
1 via `|| 1`, which the `wheat` default reproduces point-wise. -/
def cropTypeOf (r : ℚ) : CropType :=
  if ⌊r * 3⌋ = 0 then .wheat
  else if ⌊r * 3⌋ = 1 then .pumpkin
  else if ⌊r * 3⌋ = 2 then .golden_apple
  else .wheat

/-- `Game.spawnCrop` for the `i`-th crop spawned in this update step. -/
def spawnCropAt (env : Env) (i : ℕ) : Crop :=
  Crop.init (gridX (env.cropPos i).1) (gridY (env.cropPos i).2)
    (cropTypeOf (env.cropTypeR i)) (env.cropSwayR i * env.piVal * 2)

/-- `Game.spawnPowerUp` for the `i`-th power-up spawned in this update step. -/
def spawnPowerUpAt (env : Env) (i : ℕ) : PowerUp :=
  PowerUp.init (gridX (env.puPos i).1) (gridY (env.puPos i).2)
    (env.puAngleR i) env.piVal

/-- `Game.spawnCrow` for the `i`-th crow spawned in this update step. -/
def spawnCrowAt (env : Env) (i : ℕ) : Crow :=
  Crow.init (gridX (env.crowPos i).1) (gridY (env.crowPos i).2)
    (env.crowInitV i).1 (env.crowInitV i).2 (env.crowInitAngleR i) env.piVal

/-- The fuelled embedding of the `while (accum >= every) { accum -= every;
spawn one }` loops of `Game.update`: returns how many spawn events fire and
the residual accumulator, performing at most `fuel` iterations. The source
loop has no termination guarantee when `every ≤ 0`, which the fuel makes
explicit. -/
def drain (every : ℚ) : ℕ → ℚ → ℕ × ℚ
  | 0, acc => (0, acc)
  | fuel + 1, acc =>
    if every ≤ acc then
      let r := drain every fuel (acc - every)
      (r.1 + 1, r.2)
    else (0, acc)

/-- `Game.advanceLevel` (src/Game.js:260-291): guarded by `level >= 3`;
increments the level, resets the clock and the three spawn accumulators,
clears crops/power-ups/crows, retunes the spawn intervals, adds the new
level's goal to the cumulative required score, and rebuilds the scarecrow
list from the new level's count. -/
def Game.advanceLevel (env : Env) (g : Game) : Game :=
  if 3 ≤ g.level then g
  else
    { g with
      level := g.level + 1,
      timeLeft := (g.levels (g.level + 1 - 1)).timeLimit,
      maxTime := (g.levels (g.level + 1 - 1)).timeLimit,
      crops := [],
      powerUps := [],
      crows := [],
      accumSpawn := 0,
      accumPowerUpSpawn := 0,
      accumCrowSpawn := 0,
      spawnEvery := (g.levels (g.level + 1 - 1)).spawnEvery,
      crowSpawnEvery := (g.levels (g.level + 1 - 1)).crowSpawnEvery,
      powerUpSpawnEvery := (g.levels (g.level + 1 - 1)).powerUpSpawnEvery,
      requiredScore := g.requiredScore + (g.levels (g.level + 1 - 1)).goal,
      goal := g.requiredScore + (g.levels (g.level + 1 - 1)).goal,
      obstacles := (List.range (g.levels (g.level + 1 - 1)).numScarecrows).map (fun i =>
        Scarecrow.init (gridX (env.scarePos i).1) (gridY (env.scarePos i).2)) }

/-- The countdown line of `Game.update`:
`this.timeLeft = Game.clamp(this.timeLeft - dt, 0, this.maxTime)`. -/
def stepTimer (dt : ℚ) (g : Game) : Game :=
  { g with timeLeft := clamp (g.timeLeft - dt) 0 g.maxTime }

/-- The player lines of `Game.update`:
`this.player.handleInput(this.input); this.player.update(dt, this)`. -/
def stepPlayer (env : Env) (dt : ℚ) (g : Game) : Game :=
  { g with player := (g.player.handleInput env.input).update dt env.now g.obstacles }

/-- The crop spawn loop of `Game.update` (accumulate `dt`, drain, push one
crop per iteration; the per-iteration pushes are embedded as appending the
drained number of spawned crops in order). -/
def stepSpawnCrops (env : Env) (fuel : ℕ) (dt : ℚ) (g : Game) : Game :=
  let r := drain g.spawnEvery fuel (g.accumSpawn + dt)
  { g with accumSpawn := r.2,
           crops := g.crops ++ (List.range r.1).map (spawnCropAt env) }

/-- The power-up spawn loop of `Game.update`, as for crops. -/
def stepSpawnPowerUps (env : Env) (fuel : ℕ) (dt : ℚ) (g : Game) : Game :=
  let r := drain g.powerUpSpawnEvery fuel (g.accumPowerUpSpawn + dt)
  { g with accumPowerUpSpawn := r.2,
           powerUps := g.powerUps ++ (List.range r.1).map (spawnPowerUpAt env) }

/-- The crow spawn loop of `Game.update`, as for crops. -/
def stepSpawnCrows (env : Env) (fuel : ℕ) (dt : ℚ) (g : Game) : Game :=
  let r := drain g.crowSpawnEvery fuel (g.accumCrowSpawn + dt)
  { g with accumCrowSpawn := r.2,
           crows := g.crows ++ (List.range r.1).map (spawnCrowAt env) }

/-- The crop collection block of `Game.update` (lines 368-387): filter the
crops overlapping the player, and if any, mark them dead (via aliasing in JS,
a conditional map here), add the sum of their point values to the score, and
run the goal check: advance the level below level 3, otherwise switch to WIN. -/
def stepCollect (env : Env) (g : Game) : Game :=
  if (g.crops.filter (fun c => aabb g.player.toEntity c.toEntity)).isEmpty then g
  else
    -- `this.goal` and `this.level` read by the source after marking the batch
    -- dead and adding the points are untouched by those two mutations, so the
    -- checks are written against the pre-mutation fields they equal.
    if g.goal ≤ g.score + ((g.crops.filter (fun c =>
        aabb g.player.toEntity c.toEntity)).map (fun c => c.points)).sum then
      if g.level < 3 then
        Game.advanceLevel env { g with
          crops := g.crops.map (fun c =>
            if aabb g.player.toEntity c.toEntity then { c with dead := true } else c),
          score := g.score + ((g.crops.filter (fun c =>
            aabb g.player.toEntity c.toEntity)).map (fun c => c.points)).sum }
      else
        { g with
          crops := g.crops.map (fun c =>
            if aabb g.player.toEntity c.toEntity then { c with dead := true } else c),
          score := g.score + ((g.crops.filter (fun c =>
            aabb g.player.toEntity c.toEntity)).map (fun c => c.points)).sum,
          state := GState.WIN }
    else
      { g with
        crops := g.crops.map (fun c =>
          if aabb g.player.toEntity c.toEntity then { c with dead := true } else c),
        score := g.score + ((g.crops.filter (fun c =>
          aabb g.player.toEntity c.toEntity)).map (fun c => c.points)).sum }

/-- `this.crops = this.crops.filter(c => !c.dead)`. -/
def stepCropPurge (g : Game) : Game :=
  { g with crops := g.crops.filter (fun c => !c.dead) }

/-- `this.crops.forEach(c => c.update(dt, this))`. -/
def stepCropUpdate (dt : ℚ) (g : Game) : Game :=
  { g with crops := g.crops.map (Crop.update dt) }

/-- The power-up collection block of `Game.update` (lines 393-398): mark every
overlapping power-up dead and invoke `applySpeedBoost(5)` once per collected
power-up (the `forEach` applies the boost repeatedly, embedded as a fold). -/
def stepPowerUpCollect (env : Env) (g : Game) : Game :=
  let collected := g.powerUps.filter (fun p => aabb g.player.toEntity p.toEntity)
  { g with
    player := collected.foldl (fun f _ => f.applySpeedBoost env.now 5) g.player,
    powerUps := g.powerUps.map (fun p =>
      if aabb g.player.toEntity p.toEntity then { p with dead := true } else p) }

/-- `this.powerUps = this.powerUps.filter(p => !p.dead)`. -/
def stepPowerUpPurge (g : Game) : Game :=
  { g with powerUps := g.powerUps.filter (fun p => !p.dead) }

/-- `this.powerUps.forEach(p => p.update(dt, this))`. -/
def stepPowerUpUpdate (dt : ℚ) (g : Game) : Game :=
  { g with powerUps := g.powerUps.map (PowerUp.update dt) }

/-- `this.crows.forEach(crow => crow.update(dt, this))`, the `i`-th crow in the
list consuming the `i`-th pair of the per-frame crow-update oracle. -/
def stepCrowMove (env : Env) (dt : ℚ) (g : Game) : Game :=
  { g with crows := g.crows.mapIdx (fun i c =>
      Crow.update env dt (env.crowTurnR i).1 (env.crowTurnR i).2 c) }

/-- The crow collision block of `Game.update` (lines 404-409): if any crow
overlaps the player, the score drops by 2 per overlapping crow, floored at 0,
and each such crow is marked dead. -/
def stepCrowHit (g : Game) : Game :=
  if (g.crows.filter (fun c => aabb g.player.toEntity c.toEntity)).isEmpty then g
  else
    { g with
      score := max 0 (g.score -
        2 * ((g.crows.filter (fun c => aabb g.player.toEntity c.toEntity)).length : ℤ)),
      crows := g.crows.map (fun c =>
        if aabb g.player.toEntity c.toEntity then { c with dead := true } else c) }

/-- `this.crows = this.crows.filter(crow => !crow.dead)`. -/
def stepCrowPurge (g : Game) : Game :=
  { g with crows := g.crows.filter (fun c => !c.dead) }

/-- `Game.update(dt)` (src/Game.js:329-414): no-op outside PLAYING; countdown
and unconditional GAME_OVER short-circuit; then player input/movement, the
three spawn loops, crop collection with the goal check, crop purge and
animation, power-up collection/purge/animation, crow movement, the crow
penalty, and the crow purge — in exactly the source's order. `fuel` bounds
each spawn loop as explained at `drain`. -/
def Game.update (env : Env) (dt : ℚ) (fuel : ℕ) (g : Game) : Game :=
  if g.state ≠ GState.PLAYING then g
  else
    let g1 := stepTimer dt g
    if g1.timeLeft ≤ 0 then { g1 with state := GState.GAME_OVER }
    else
      stepCrowPurge <| stepCrowHit <| stepCrowMove env dt <|
      stepPowerUpUpdate dt <| stepPowerUpPurge <| stepPowerUpCollect env <|
      stepCropUpdate dt <| stepCropPurge <| stepCollect env <|
      stepSpawnCrows env fuel dt <| stepSpawnPowerUps env fuel dt <|
      stepSpawnCrops env fuel dt <| stepPlayer env dt g1

/-- The update step re-sequenced exactly as spec §4.3 prescribes it: after the
timer gate, player and spawns as before, then ALL entity updates (crop sway,
power-up phase, crow movement), then the collision/scoring pass (collectibles,
power-ups, mobile obstacles), and finally a single purge of all dead entities
as the last step. Built from the same stage functions as `Game.update` so the
two orders can be compared. -/
def Game.updateSpecOrdered (env : Env) (dt : ℚ) (fuel : ℕ) (g : Game) : Game :=
  if g.state ≠ GState.PLAYING then g
  else
    let g1 := stepTimer dt g
    if g1.timeLeft ≤ 0 then { g1 with state := GState.GAME_OVER }
    else
      stepCrowPurge <| stepPowerUpPurge <| stepCropPurge <|
      stepCrowHit <| stepPowerUpCollect env <| stepCollect env <|
      stepCrowMove env dt <| stepPowerUpUpdate dt <| stepCropUpdate dt <|
      stepSpawnCrows env fuel dt <| stepSpawnPowerUps env fuel dt <|
      stepSpawnCrops env fuel dt <| stepPlayer env dt g1

/-- `Game.togglePause` (src/Game.js): PLAYING ⇄ PAUSED, no-op elsewhere. -/
def Game.togglePause (g : Game) : Game :=
  if g.state = GState.PLAYING then { g with state := GState.PAUSED }
  else if g.state = GState.PAUSED then { g with state := GState.PLAYING }
  else g

/-- `Game.resetWithConfig(config)` (src/Game.js:184-218): back to MENU at
level 1 with a fresh player, empty entity lists, zero score, level-1 tuning,
and the initial scarecrows placed from the position oracle. -/
def Game.resetWithConfig (env : Env) (levels : ℕ → LevelCfg) (g : Game) : Game :=
  { g with
    state := GState.MENU,
    level := 1,
    levels := levels,
    player := Farmer.init (WIDTH / 2 - 17) (HEIGHT - 80),
    crops := [],
    obstacles := (List.range (levels 0).numScarecrows).map (fun i =>
      Scarecrow.init (gridX (env.scarePos i).1) (gridY (env.scarePos i).2)),
    powerUps := [],
    crows := [],
    score := 0,
    requiredScore := (levels 0).goal,
    goal := (levels 0).goal,
    timeLeft := (levels 0).timeLimit,
    maxTime := (levels 0).timeLimit,
    spawnEvery := (levels 0).spawnEvery,
    crowSpawnEvery := (levels 0).crowSpawnEvery,
    powerUpSpawnEvery := (levels 0).powerUpSpawnEvery,
    accumSpawn := 0,
    accumPowerUpSpawn := 0,
    accumCrowSpawn := 0 }

/-- The loop iteration count that suffices for `drain every fuel acc` to have
fully drained the accumulator when `0 < every`. -/
def iterCount (every acc : ℚ) : ℕ := (⌊acc / every⌋).toNat

/-- A fixed benign environment used to instantiate theorems at concrete
inputs: clock at 0, no keys held, and constant oracle streams. -/
def env0 : Env :=
  { now := 0,
    input := ⟨false, false, false, false⟩,
    cosFn := fun _ => 1,
    sinFn := fun _ => 0,
    piVal := 3,
    cropPos := fun _ => (0, 0),
    cropTypeR := fun _ => 0,
    cropSwayR := fun _ => 0,
    puPos := fun _ => (0, 0),
    puAngleR := fun _ => 0,
    crowPos := fun _ => (0, 0),
    crowInitV := fun _ => (0, 0),
    crowInitAngleR := fun _ => 0,
    crowTurnR := fun _ => (1, 0),
    scarePos := fun _ => (0, 0) }

/-- A concrete mid-run level-1 PLAYING state with the default configuration:
score 20 already at or above the cumulative goal 15, and no entities on the
field. -/
def g0 : Game :=
  { state := GState.PLAYING,
    level := 1,
    levels := defaultLevels,
    requiredScore := 15,
    maxTime := 60,
    player := Farmer.init 433 460,
    crops := [],
    obstacles := [],
    powerUps := [],
    crows := [],
    timeLeft := 60,
    spawnEvery := 4/5,
    accumSpawn := 0,
    powerUpSpawnEvery := 10,
    accumPowerUpSpawn := 0,
    crowSpawnEvery := 5,
    accumCrowSpawn := 0,
    score := 20,
    goal := 15 }

/-- A concrete variant of `g0` with score 3 and two alive crows overlapping
the player, used to instantiate theorems. -/
def g0crows : Game :=
  { g0 with score := 3,
            crows := [Crow.init 433 460 0 0 0 3, Crow.init 440 466 0 0 0 3] }

/-- A concrete variant of `g0` with score 0 and two alive collectibles
(wheat and golden apple) overlapping the player. -/
def g0crops : Game :=
  { g0 with score := 0,
            crops := [Crop.init 440 466 CropType.wheat 0,
                      Crop.init 433 460 CropType.golden_apple 0] }

/-- A concrete level-1 state one collection away from the cumulative goal 15:
score 14 with a single overlapping golden apple worth 5. -/
def g0adv : Game :=
  { g0 with score := 14,
            crops := [Crop.init 433 460 CropType.golden_apple 0] }

/-! ## Theorems -/

/-- C9: the AABB intersection test of src/Utils.js is symmetric, and
rectangles that merely touch on an edge (`a.x + a.w = b.x`) do not intersect,
because all four comparisons are strict. -/
theorem aabb_symm_and_edge_touching :
    (∀ a b : Entity, aabb a b = aabb b a) ∧
    (∀ a b : Entity, a.x + a.w = b.x → aabb a b = false) := by
  constructor
  · intro a b
    have h : (aabb a b = true) ↔ (aabb b a = true) := by
      simp only [aabb, Bool.and_eq_true, decide_eq_true_eq, gt_iff_lt]
      tauto
    cases hab : aabb a b <;> cases hba : aabb b a <;> simp_all
  · intro a b h
    simp only [aabb, h, gt_iff_lt, lt_irrefl, decide_False, Bool.and_false,
      Bool.false_and]

/-- C9 witness: symmetry and non-intersection at the concrete edge-touching
pair `[0,10]×[0,10]` and `[10,20]×[0,10]`. -/
theorem aabb_symm_and_edge_touching_witness :
    aabb ⟨0, 0, 10, 10, false⟩ ⟨10, 0, 10, 10, false⟩ =
      aabb ⟨10, 0, 10, 10, false⟩ ⟨0, 0, 10, 10, false⟩ ∧
    aabb ⟨0, 0, 10, 10, false⟩ ⟨10, 0, 10, 10, false⟩ = false :=
  ⟨aabb_symm_and_edge_touching.1 _ _,
   aabb_symm_and_edge_touching.2 ⟨0, 0, 10, 10, false⟩ ⟨10, 0, 10, 10, false⟩
     (by with_unfolding_all decide)⟩

/-- C1: in a PLAYING update step whose subtracted clock reaches 0, the state
becomes GAME_OVER unconditionally (no comparison with the goal), and nothing
else of the step runs: the result differs from the input only in `timeLeft`
(the clamped countdown) and `state` — no spawning, no player movement, no
collision or scoring. -/
theorem update_time_expiry_short_circuits (env : Env) (dt : ℚ) (fuel : ℕ)
    (g : Game) (hs : g.state = GState.PLAYING) (ht : g.timeLeft - dt ≤ 0) :
    Game.update env dt fuel g =
      { g with timeLeft := clamp (g.timeLeft - dt) 0 g.maxTime,
               state := GState.GAME_OVER } := by
  have hcl : clamp (g.timeLeft - dt) 0 g.maxTime ≤ 0 := by
    unfold clamp
    rw [max_eq_left ht]
    exact min_le_right _ _
  unfold Game.update
  rw [if_neg (by simp [hs])]
  simp only [stepTimer]
  rw [if_pos hcl]

/-- C1 witness: a concrete PLAYING state with 0.05s left and a 0.1s frame
goes to GAME_OVER with the clock clamped at 0 and everything else intact. -/
theorem update_time_expiry_short_circuits_witness :
    Game.update env0 (1/10) 3 { g0 with timeLeft := 1/20 } =
      { g0 with
        timeLeft := clamp ((1:ℚ)/20 - 1/10) 0 g0.maxTime,
        state := GState.GAME_OVER } :=
  update_time_expiry_short_circuits env0 (1/10) 3 { g0 with timeLeft := 1/20 }
    (by with_unfolding_all decide) (by with_unfolding_all decide)

/-- C8: the update step is a no-op in every state other than PLAYING; in
particular any sequence of update steps taken while PAUSED, with arbitrary
per-step environments and dt values, leaves the whole game state — score,
timeLeft, spawn accumulators, and every entity — unchanged. -/
theorem update_noop_unless_playing :
    (∀ (env : Env) (dt : ℚ) (fuel : ℕ) (g : Game),
      g.state ≠ GState.PLAYING → Game.update env dt fuel g = g) ∧
    (∀ (g : Game) (steps : List (Env × ℚ)) (fuel : ℕ),
      g.state = GState.PAUSED →
      steps.foldl (fun s p => Game.update p.1 p.2 fuel s) g = g) := by
  have h1 : ∀ (env : Env) (dt : ℚ) (fuel : ℕ) (g : Game),
      g.state ≠ GState.PLAYING → Game.update env dt fuel g = g := by
    intro env dt fuel g h
    unfold Game.update
    rw [if_pos h]
  refine ⟨h1, ?_⟩
  intro g steps fuel hp
  induction steps with
  | nil => rfl
  | cons p rest ih =>
    have hne : g.state ≠ GState.PLAYING := by rw [hp]; intro h; cases h
    simpa [List.foldl_cons, h1 p.1 p.2 fuel g hne] using ih

/-- C8 witness: two concrete PAUSED frames with nonzero dt leave the concrete
state untouched. -/
theorem update_noop_unless_playing_witness :
    [(env0, (1:ℚ)/2), (env0, (1:ℚ)/3)].foldl
      (fun s p => Game.update p.1 p.2 3 s) { g0 with state := GState.PAUSED } =
      { g0 with state := GState.PAUSED } :=
  update_noop_unless_playing.2 { g0 with state := GState.PAUSED }
    [(env0, (1:ℚ)/2), (env0, (1:ℚ)/3)] 3 rfl

/-- C6: in every `Farmer.update` step the candidate position is the old
position plus `velocity × dt`, clamped to the world bounds independently per
axis; if the candidate AABB (at the player's size) intersects ANY static
obstacle, the whole move is rejected and both axes stay at the pre-move
position — there is no axis-separated sliding, so a diagonal move into a
corner is fully stopped. -/
theorem farmer_update_move_or_revert (f : Farmer) (dt now : ℚ)
    (obs : List Scarecrow) :
    ((Farmer.update f dt now obs).x, (Farmer.update f dt now obs).y) =
      if obs.any (fun o =>
          aabb ⟨clamp (f.x + f.vx * dt) 0 (WIDTH - f.w),
                clamp (f.y + f.vy * dt) 0 (HEIGHT - f.h),
                f.w, f.h, f.dead⟩ o.toEntity)
      then (f.x, f.y)
      else (clamp (f.x + f.vx * dt) 0 (WIDTH - f.w),
            clamp (f.y + f.vy * dt) 0 (HEIGHT - f.h)) := by
  unfold Farmer.update
  dsimp only
  split_ifs <;> rfl

/-- When the accumulator is below the interval the loop body never runs,
whatever the fuel. -/
theorem drain_stop (every acc : ℚ) (h : ¬ every ≤ acc) :
    ∀ fuel, drain every fuel acc = (0, acc)
  | 0 => rfl
  | fuel + 1 => by unfold drain; rw [if_neg h]

/-- One iteration of the spawn loop when the guard holds. -/
theorem drain_succ_of_le (every acc : ℚ) (fuel : ℕ) (h : every ≤ acc) :
    drain every (fuel + 1) acc =
      ((drain every fuel (acc - every)).1 + 1,
       (drain every fuel (acc - every)).2) := by
  simp only [drain]; rw [if_pos h]

/-- Closed form of the spawn loop for a positive interval: with fuel at least
`iterCount every acc` the loop fires exactly `iterCount every acc` times and
leaves `acc - iterCount · every` in the accumulator. -/
theorem drain_eq_of_le_fuel (every : ℚ) (he : 0 < every) :
    ∀ (fuel : ℕ) (acc : ℚ), iterCount every acc ≤ fuel →
      drain every fuel acc =
        (iterCount every acc, acc - (iterCount every acc : ℚ) * every) := by
  intro fuel
  induction fuel with
  | zero =>
    intro acc h
    have h0 : iterCount every acc = 0 := Nat.le_zero.mp h
    simp [drain, h0]
  | succ n ih =>
    intro acc h
    by_cases hle : every ≤ acc
    · have hfl1 : 1 ≤ ⌊acc / every⌋ := by
        rw [Int.le_floor]
        push_cast
        rw [le_div_iff₀ he]
        linarith
    -- the floor of the drained accumulator drops by exactly one
      have hdiv : (acc - every) / every = acc / every - 1 := by
        field_simp
      have hfl : ⌊(acc - every) / every⌋ = ⌊acc / every⌋ - 1 := by
        rw [hdiv, show (1:ℚ) = ((1:ℤ):ℚ) by norm_num, Int.floor_sub_int]
      have hit1 : 1 ≤ iterCount every acc := by
        unfold iterCount; omega
      have hshift : iterCount every (acc - every) = iterCount every acc - 1 := by
        unfold iterCount
        rw [hfl]
        omega
      have hle' : iterCount every (acc - every) ≤ n := by omega
      rw [drain_succ_of_le every acc n hle, ih (acc - every) hle', hshift]
      have hc : ((iterCount every acc - 1 : ℕ) : ℚ) =
          (iterCount every acc : ℚ) - 1 := by
        push_cast [Nat.cast_sub hit1]
        ring
      refine Prod.ext ?_ ?_
      · simp only
        omega
      · simp only [hc]
        ring
    · have hfl0 : ⌊acc / every⌋ ≤ 0 := by
        have hlt : ⌊acc / every⌋ < 1 := by
          rw [Int.floor_lt]
          push_cast
          exact (div_lt_one he).mpr (lt_of_not_le hle)
        omega
      have h0 : iterCount every acc = 0 := by
        unfold iterCount; omega
      rw [drain_stop every acc hle, h0]
      simp

/-- The result of the spawn loop is fuel-independent once the fuel reaches
the iteration count. -/
theorem drain_fuel_congr (every acc : ℚ) (he : 0 < every) (f1 f2 : ℕ)
    (h1 : iterCount every acc ≤ f1) (h2 : iterCount every acc ≤ f2) :
    drain every f1 acc = drain every f2 acc := by
  rw [drain_eq_of_le_fuel every he f1 acc h1, drain_eq_of_le_fuel every he f2 acc h2]

/-- Fuel congruence lifted to the crop spawn stage. -/
theorem stepSpawnCrops_fuel_congr (env : Env) (dt : ℚ) (h : Game) (f1 f2 : ℕ)
    (hp : 0 < h.spawnEvery)
    (l1 : iterCount h.spawnEvery (h.accumSpawn + dt) ≤ f1)
    (l2 : iterCount h.spawnEvery (h.accumSpawn + dt) ≤ f2) :
    stepSpawnCrops env f1 dt h = stepSpawnCrops env f2 dt h := by
  unfold stepSpawnCrops
  rw [drain_fuel_congr _ _ hp f1 f2 l1 l2]

/-- Fuel congruence lifted to the power-up spawn stage. -/
theorem stepSpawnPowerUps_fuel_congr (env : Env) (dt : ℚ) (h : Game) (f1 f2 : ℕ)
    (hp : 0 < h.powerUpSpawnEvery)
    (l1 : iterCount h.powerUpSpawnEvery (h.accumPowerUpSpawn + dt) ≤ f1)
    (l2 : iterCount h.powerUpSpawnEvery (h.accumPowerUpSpawn + dt) ≤ f2) :
    stepSpawnPowerUps env f1 dt h = stepSpawnPowerUps env f2 dt h := by
  unfold stepSpawnPowerUps
  rw [drain_fuel_congr _ _ hp f1 f2 l1 l2]

/-- Fuel congruence lifted to the crow spawn stage. -/
theorem stepSpawnCrows_fuel_congr (env : Env) (dt : ℚ) (h : Game) (f1 f2 : ℕ)
    (hp : 0 < h.crowSpawnEvery)
    (l1 : iterCount h.crowSpawnEvery (h.accumCrowSpawn + dt) ≤ f1)
    (l2 : iterCount h.crowSpawnEvery (h.accumCrowSpawn + dt) ≤ f2) :
    stepSpawnCrows env f1 dt h = stepSpawnCrows env f2 dt h := by
  unfold stepSpawnCrows
  rw [drain_fuel_congr _ _ hp f1 f2 l1 l2]

/-- C7: the while-loop drains the accumulator fully: with interval 0.8 and a
single frame of `dt = 2.5` on an empty accumulator, exactly 3 spawn events
fire in that one update and the residual accumulator is exactly 0.1 (the
rational embedding is exact where floating point is approximate), so multiple
entities can spawn in one frame. Stated for every sufficient fuel bound and
for the crop spawn stage of the update step. -/
theorem spawn_accumulator_drains_fully (env : Env) (g : Game) (fuel : ℕ)
    (h1 : g.spawnEvery = 4/5) (h2 : g.accumSpawn = 0) :
    drain (4/5) (3 + fuel) (0 + 5/2) = (3, 1/10) ∧
    (stepSpawnCrops env (3 + fuel) (5/2) g).accumSpawn = 1/10 ∧
    (stepSpawnCrops env (3 + fuel) (5/2) g).crops.length = g.crops.length + 3 := by
  have hd : drain ((4:ℚ)/5) (3 + fuel) (0 + 5/2) = (3, 1/10) := by
    rw [show 3 + fuel = ((fuel + 1) + 1) + 1 by omega]
    rw [drain_succ_of_le _ _ _ (by norm_num)]
    rw [show (0:ℚ) + 5/2 - 4/5 = 17/10 by norm_num]
    rw [drain_succ_of_le _ _ _ (by norm_num)]
    rw [show (17:ℚ)/10 - 4/5 = 9/10 by norm_num]
    rw [drain_succ_of_le _ _ _ (by norm_num)]
    rw [show (9:ℚ)/10 - 4/5 = 1/10 by norm_num]
    rw [drain_stop (4/5) (1/10) (by norm_num)]
  have hd' : drain ((4:ℚ)/5) (3 + fuel) (5/2) = (3, 1/10) := by
    rw [show (5:ℚ)/2 = 0 + 5/2 by norm_num]
    exact hd
  refine ⟨hd, ?_, ?_⟩ <;>
    simp [stepSpawnCrops, h1, h2, hd']

/-- C7 witness: the concrete drain at interval 0.8, dt 2.5, and the concrete
crop stage on `g0` (whose interval is 0.8 and accumulator 0). -/
theorem spawn_accumulator_drains_fully_witness :
    drain (4/5) (3 + 0) (0 + 5/2) = (3, 1/10) ∧
    (stepSpawnCrops env0 (3 + 0) (5/2) g0).accumSpawn = 1/10 ∧
    (stepSpawnCrops env0 (3 + 0) (5/2) g0).crops.length = g0.crops.length + 3 :=
  spawn_accumulator_drains_fully env0 g0 0 (by with_unfolding_all decide)
    (by with_unfolding_all decide)

/-- C10: with all three configured spawn intervals strictly positive, every
update step terminates — beyond an explicit finite fuel bound the three spawn
while-loops have fully drained and the update result no longer depends on the
fuel. Conversely, with a nonpositive interval whose accumulator is at or
above it, the loop guard never fails: the loop consumes every amount of fuel,
i.e. it never terminates (the code does not validate the configured
intervals). -/
theorem update_spawn_loops_terminate :
    (∀ (env : Env) (dt : ℚ) (g : Game),
      0 < g.spawnEvery → 0 < g.powerUpSpawnEvery → 0 < g.crowSpawnEvery →
      ∃ F : ℕ, ∀ fuel : ℕ, F ≤ fuel →
        Game.update env dt fuel g = Game.update env dt F g) ∧
    (∀ (every acc : ℚ), every ≤ 0 → every ≤ acc →
      ∀ fuel : ℕ, (drain every fuel acc).1 = fuel) := by
  constructor
  · intro env dt g h1 h2 h3
    refine ⟨max (iterCount g.spawnEvery (g.accumSpawn + dt))
      (max (iterCount g.powerUpSpawnEvery (g.accumPowerUpSpawn + dt))
           (iterCount g.crowSpawnEvery (g.accumCrowSpawn + dt))), ?_⟩
    intro fuel hF
    unfold Game.update
    by_cases hs : g.state ≠ GState.PLAYING
    · rw [if_pos hs, if_pos hs]
    · rw [if_neg hs, if_neg hs]
      dsimp only
      by_cases htl : (stepTimer dt g).timeLeft ≤ 0
      · rw [if_pos htl, if_pos htl]
      · rw [if_neg htl, if_neg htl]
        have e1 : stepSpawnCrops env fuel dt (stepPlayer env dt (stepTimer dt g)) =
            stepSpawnCrops env (max (iterCount g.spawnEvery (g.accumSpawn + dt))
              (max (iterCount g.powerUpSpawnEvery (g.accumPowerUpSpawn + dt))
                   (iterCount g.crowSpawnEvery (g.accumCrowSpawn + dt)))) dt
              (stepPlayer env dt (stepTimer dt g)) :=
          stepSpawnCrops_fuel_congr env dt _ _ _ h1
            (le_trans (le_max_left _ _) hF) (le_max_left _ _)
        rw [e1]
        have e2 : stepSpawnPowerUps env fuel dt _ = stepSpawnPowerUps env (max
              (iterCount g.spawnEvery (g.accumSpawn + dt))
              (max (iterCount g.powerUpSpawnEvery (g.accumPowerUpSpawn + dt))
                   (iterCount g.crowSpawnEvery (g.accumCrowSpawn + dt)))) dt
            (stepSpawnCrops env (max (iterCount g.spawnEvery (g.accumSpawn + dt))
              (max (iterCount g.powerUpSpawnEvery (g.accumPowerUpSpawn + dt))
                   (iterCount g.crowSpawnEvery (g.accumCrowSpawn + dt)))) dt
              (stepPlayer env dt (stepTimer dt g))) :=
          stepSpawnPowerUps_fuel_congr env dt _ _ _ h2
            (le_trans (le_trans (le_max_left _ _) (le_max_right _ _)) hF)
            (le_trans (le_max_left _ _) (le_max_right _ _))
        rw [e2]
        have e3 : stepSpawnCrows env fuel dt _ = stepSpawnCrows env (max
              (iterCount g.spawnEvery (g.accumSpawn + dt))
              (max (iterCount g.powerUpSpawnEvery (g.accumPowerUpSpawn + dt))
                   (iterCount g.crowSpawnEvery (g.accumCrowSpawn + dt)))) dt
            (stepSpawnPowerUps env (max (iterCount g.spawnEvery (g.accumSpawn + dt))
              (max (iterCount g.powerUpSpawnEvery (g.accumPowerUpSpawn + dt))
                   (iterCount g.crowSpawnEvery (g.accumCrowSpawn + dt)))) dt
              (stepSpawnCrops env (max (iterCount g.spawnEvery (g.accumSpawn + dt))
                (max (iterCount g.powerUpSpawnEvery (g.accumPowerUpSpawn + dt))
                     (iterCount g.crowSpawnEvery (g.accumCrowSpawn + dt)))) dt
                (stepPlayer env dt (stepTimer dt g)))) :=
          stepSpawnCrows_fuel_congr env dt _ _ _ h3
            (le_trans (le_trans (le_max_right _ _) (le_max_right _ _)) hF)
            (le_trans (le_max_right _ _) (le_max_right _ _))
        rw [e3]
  · intro every acc hneg
    suffices h : ∀ (fuel : ℕ) (a : ℚ), every ≤ a → (drain every fuel a).1 = fuel by
      intro hacc fuel
      exact h fuel acc hacc
    intro fuel
    induction fuel with
    | zero => intro a _; rfl
    | succ n ih =>
      intro a ha
      rw [drain_succ_of_le every a n ha]
      have : every ≤ a - every := by linarith
      simp [ih (a - every) this]

/-- C10 witness: at the concrete state `g0` (intervals 0.8/10/5, all
positive) the update result stabilises beyond some finite fuel, and a
nonpositive interval 0 with accumulator 1 consumes 7 units of fuel in 7
iterations without the guard ever failing. -/
theorem update_spawn_loops_terminate_witness :
    (∃ F : ℕ, ∀ fuel : ℕ, F ≤ fuel →
      Game.update env0 1 fuel g0 = Game.update env0 1 F g0) ∧
    (drain 0 7 1).1 = 7 :=
  ⟨update_spawn_loops_terminate.1 env0 1 g0 (by with_unfolding_all decide)
      (by with_unfolding_all decide) (by with_unfolding_all decide),
   update_spawn_loops_terminate.2 0 1 (by with_unfolding_all decide)
      (by with_unfolding_all decide) 7⟩

/-- C4: the crow-contact step of every update (after crow movement): the
post-penalty score is exactly `max 0 (pre − 2 × number of crows overlapping
the player)` — never negative — and each overlapping crow is removed by the
purge that follows the penalty, under the run invariants that the score is
nonnegative and every listed crow is alive. -/
theorem crow_penalty_floored_at_zero (g : Game)
    (hScore : 0 ≤ g.score)
    (hAlive : ∀ c ∈ g.crows, c.dead = false) :
    (stepCrowPurge (stepCrowHit g)).score =
      max 0 (g.score -
        2 * ((g.crows.filter (fun c => aabb g.player.toEntity c.toEntity)).length : ℤ)) ∧
    (stepCrowPurge (stepCrowHit g)).crows =
      g.crows.filter (fun c => !(aabb g.player.toEntity c.toEntity)) ∧
    0 ≤ (stepCrowPurge (stepCrowHit g)).score := by
  by_cases hemp :
      (g.crows.filter (fun c => aabb g.player.toEntity c.toEntity)).isEmpty
  · have hnil : g.crows.filter (fun c => aabb g.player.toEntity c.toEntity) = [] :=
      List.isEmpty_iff.mp hemp
    have hnohit : ∀ c ∈ g.crows, ¬ (aabb g.player.toEntity c.toEntity = true) := by
      intro c hc hhit
      have : c ∈ (g.crows.filter (fun c => aabb g.player.toEntity c.toEntity)) :=
        List.mem_filter.mpr ⟨hc, hhit⟩
      rw [hnil] at this
      cases this
    have hhit0 : stepCrowHit g = g := by
      unfold stepCrowHit
      rw [if_pos hemp]
    rw [hhit0]
    have hcrows : (stepCrowPurge g).crows =
        g.crows.filter (fun c => !(aabb g.player.toEntity c.toEntity)) := by
      show g.crows.filter (fun c => !c.dead) = _
      exact List.filter_congr (fun c hc => by
        simp [hAlive c hc, hnohit c hc])
    refine ⟨?_, hcrows, ?_⟩
    · have : (stepCrowPurge g).score = g.score := rfl
      rw [this, hnil]
      simp [hScore, max_eq_right hScore]
    · exact hScore
  · have hsc : (stepCrowHit g).score =
        max 0 (g.score -
          2 * ((g.crows.filter (fun c => aabb g.player.toEntity c.toEntity)).length : ℤ)) := by
      unfold stepCrowHit
      rw [if_neg hemp]
    have hcr : (stepCrowHit g).crows = g.crows.map (fun c =>
        if aabb g.player.toEntity c.toEntity then { c with dead := true } else c) := by
      unfold stepCrowHit
      rw [if_neg hemp]
    refine ⟨?_, ?_, ?_⟩
    · show (stepCrowHit g).score = _
      exact hsc
    · show ((stepCrowHit g).crows.filter (fun c => !c.dead)) = _
      rw [hcr, List.filter_map]
      have hf : g.crows.filter ((fun c => !c.dead) ∘ (fun c =>
            if aabb g.player.toEntity c.toEntity then { c with dead := true } else c)) =
          g.crows.filter (fun c => !(aabb g.player.toEntity c.toEntity)) := by
        refine List.filter_congr (fun c hc => ?_)
        by_cases hhit : aabb g.player.toEntity c.toEntity <;>
          simp [Function.comp, hhit, hAlive c hc]
      rw [hf]
      refine List.map_congr_left (fun c hc => ?_) |>.trans (List.map_id _)
      have := (List.mem_filter.mp hc).2
      simp only [Bool.not_eq_true'] at this
      simp [this]
    · show 0 ≤ (stepCrowHit g).score
      rw [hsc]
      exact le_max_left 0 _

/-- C4 witness: overlapping 2 alive crows at score 3 yields score
`max 0 (3 − 4) = 0`, and both crows are removed. -/
theorem crow_penalty_floored_at_zero_witness :
    (stepCrowPurge (stepCrowHit g0crows)).score = 0 ∧
    (stepCrowPurge (stepCrowHit g0crows)).crows = [] := by
  have h := crow_penalty_floored_at_zero g0crows
    (by with_unfolding_all decide) (by intro c hc; fin_cases hc <;> rfl)
  refine ⟨?_, ?_⟩
  · rw [h.1]
    with_unfolding_all decide
  · rw [h.2.1]
    with_unfolding_all decide

/-- C5: the crop-collection step of every update collects the alive
collectibles overlapping the player as one atomic batch: the score grows by
the sum of their point values (all overlapping crops count), every collected
crop is marked dead in the resulting list (unless a level advance cleared the
list wholesale), and the point values are fixed per type: 1 (wheat), 3
(pumpkin), 5 (golden apple). -/
theorem collect_crops_atomic_batch (env : Env) (g : Game)
    (hAlive : ∀ c ∈ g.crops, c.dead = false) :
    (stepCollect env g).score = g.score +
      ((g.crops.filter (fun c => !c.dead &&
          aabb g.player.toEntity c.toEntity)).map (fun c => c.points)).sum ∧
    ((stepCollect env g).crops = [] ∨
      (stepCollect env g).crops = g.crops.map (fun c =>
        if aabb g.player.toEntity c.toEntity then { c with dead := true } else c)) ∧
    (∀ (x y sway0 : ℚ) (t : CropType), (Crop.init x y t sway0).points = t.pointsOf) ∧
    CropType.pointsOf .wheat = 1 ∧ CropType.pointsOf .pumpkin = 3 ∧
    CropType.pointsOf .golden_apple = 5 := by
  have hfe : g.crops.filter (fun c => !c.dead && aabb g.player.toEntity c.toEntity) =
      g.crops.filter (fun c => aabb g.player.toEntity c.toEntity) :=
    List.filter_congr (fun c hc => by simp [hAlive c hc])
  rw [hfe]
  by_cases hemp :
      (g.crops.filter (fun c => aabb g.player.toEntity c.toEntity)).isEmpty
  · have hnil : g.crops.filter (fun c => aabb g.player.toEntity c.toEntity) = [] :=
      List.isEmpty_iff.mp hemp
    have hnohit : ∀ c ∈ g.crops, ¬ (aabb g.player.toEntity c.toEntity = true) := by
      intro c hc hhit
      have : c ∈ (g.crops.filter (fun c => aabb g.player.toEntity c.toEntity)) :=
        List.mem_filter.mpr ⟨hc, hhit⟩
      rw [hnil] at this
      cases this
    have h0 : stepCollect env g = g := by
      unfold stepCollect
      rw [if_pos hemp]
    rw [h0, hnil]
    refine ⟨by simp, Or.inr ?_, fun x y s t => rfl, rfl, rfl, rfl⟩
    refine (List.map_congr_left (fun c hc => ?_)).trans (List.map_id _) |>.symm
    simp [hnohit c hc]
  · unfold stepCollect
    rw [if_neg hemp]
    refine ⟨?_, ?_, fun x y s t => rfl, rfl, rfl, rfl⟩
    · split_ifs with hgoal hlvl
      · unfold Game.advanceLevel
        rw [if_neg (by dsimp only; omega)]
      · rfl
      · rfl
    · split_ifs with hgoal hlvl
      · unfold Game.advanceLevel
        rw [if_neg (by dsimp only; omega)]
        exact Or.inl rfl
      · exact Or.inr rfl
      · exact Or.inr rfl

/-- C5 witness: a batch of two overlapping alive crops (wheat and golden
apple) collected in one step adds 1 + 5 = 6 points at once and both crops are
marked dead. -/
theorem collect_crops_atomic_batch_witness :
    (stepCollect env0 g0crops).score = 6 := by
  have h := collect_crops_atomic_batch env0 g0crops
    (by intro c hc; fin_cases hc <;> rfl)
  rw [h.1]
  with_unfolding_all decide

/-- The crow-contact step never changes the level. -/
theorem stepCrowHit_level (h : Game) : (stepCrowHit h).level = h.level := by
  unfold stepCrowHit; split_ifs <;> rfl

/-- The post-collection stages of the update never change the level. -/
theorem level_after_pass (env : Env) (dt : ℚ) (h : Game) :
    (stepCrowPurge (stepCrowHit (stepCrowMove env dt (stepPowerUpUpdate dt
      (stepPowerUpPurge (stepPowerUpCollect env (stepCropUpdate dt
        (stepCropPurge h)))))))).level = h.level := by
  show (stepCrowHit _).level = h.level
  rw [stepCrowHit_level]
  rfl

/-- The collection step either keeps the level or, strictly below level 3,
increments it by exactly one. -/
theorem stepCollect_level (env : Env) (h : Game) :
    (stepCollect env h).level = h.level ∨
      (h.level < 3 ∧ (stepCollect env h).level = h.level + 1) := by
  unfold stepCollect
  split_ifs with h1 h2 h3
  · exact Or.inl rfl
  · unfold Game.advanceLevel
    split_ifs with h4
    · exact Or.inl rfl
    · exact Or.inr ⟨h3, rfl⟩
  · exact Or.inl rfl
  · exact Or.inl rfl

set_option maxRecDepth 8000 in
set_option maxHeartbeats 2000000 in
/-- C2 counterexample: the goal check of `Game.update` runs only inside the
crop-collection branch, so a PLAYING step whose score is already at or above
the cumulative goal but which collects no crop advances nothing: at the
concrete state `g0` (level 1, goal 15, score 20, nothing on the field), one
0.1-second update leaves the level at 1 and keeps PLAYING with the clock
merely ticked down — the claim's unconditional level advance does not
happen. -/
theorem level_advance_on_goal_counterexample :
    g0.state = GState.PLAYING ∧ g0.goal ≤ g0.score ∧ g0.level = 1 ∧
    (Game.update env0 (1/10) 3 g0).level = 1 ∧
    (Game.update env0 (1/10) 3 g0).state = GState.PLAYING ∧
    (Game.update env0 (1/10) 3 g0).timeLeft = 599/10 := by
  with_unfolding_all decide

set_option maxRecDepth 8000 in
set_option maxHeartbeats 2000000 in
/-- C2 (amended): in every update step whose collection batch is nonempty and
whose post-batch score reaches the cumulative goal, the goal check fires:
below level 3 the level is incremented by exactly 1, timeLeft is reset to the
new level's time limit, the three spawn accumulators are reset to 0, the
Collectible/PowerUp/MobileObstacle lists are cleared, the StaticObstacle list
is rebuilt with the new level's obstacle count, and the new level's goal is
added to the cumulative goal; at level 3 the state becomes WIN instead; and
across any update step the level only ever increases, by at most one and only
from below 3, hence never exceeds 3. -/
theorem level_advance_amended :
    (∀ (env : Env) (g : Game),
      ¬ (g.crops.filter (fun c => aabb g.player.toEntity c.toEntity)).isEmpty = true →
      g.goal ≤ g.score + ((g.crops.filter (fun c =>
        aabb g.player.toEntity c.toEntity)).map (fun c => c.points)).sum →
      g.level < 3 →
      stepCollect env g = { g with
        level := g.level + 1,
        timeLeft := (g.levels g.level).timeLimit,
        maxTime := (g.levels g.level).timeLimit,
        crops := [], powerUps := [], crows := [],
        accumSpawn := 0, accumPowerUpSpawn := 0, accumCrowSpawn := 0,
        spawnEvery := (g.levels g.level).spawnEvery,
        crowSpawnEvery := (g.levels g.level).crowSpawnEvery,
        powerUpSpawnEvery := (g.levels g.level).powerUpSpawnEvery,
        requiredScore := g.requiredScore + (g.levels g.level).goal,
        goal := g.requiredScore + (g.levels g.level).goal,
        score := g.score + ((g.crops.filter (fun c =>
          aabb g.player.toEntity c.toEntity)).map (fun c => c.points)).sum,
        obstacles := (List.range (g.levels g.level).numScarecrows).map (fun i =>
          Scarecrow.init (gridX (env.scarePos i).1) (gridY (env.scarePos i).2)) }) ∧
    (∀ (env : Env) (g : Game),
      ¬ (g.crops.filter (fun c => aabb g.player.toEntity c.toEntity)).isEmpty = true →
      g.goal ≤ g.score + ((g.crops.filter (fun c =>
        aabb g.player.toEntity c.toEntity)).map (fun c => c.points)).sum →
      3 ≤ g.level →
      (stepCollect env g).state = GState.WIN ∧
      (stepCollect env g).level = g.level) ∧
    (∀ (env : Env) (dt : ℚ) (fuel : ℕ) (g : Game),
      (Game.update env dt fuel g).level = g.level ∨
        (g.level < 3 ∧ (Game.update env dt fuel g).level = g.level + 1)) := by
  refine ⟨?_, ?_, ?_⟩
  · intro env g hne hgoal hlvl
    unfold stepCollect
    rw [if_neg hne, if_pos hgoal, if_pos hlvl]
    unfold Game.advanceLevel
    rw [if_neg (by dsimp only; omega)]
    rfl
  · intro env g hne hgoal hlvl
    unfold stepCollect
    rw [if_neg hne, if_pos hgoal, if_neg (by omega)]
    exact ⟨rfl, rfl⟩
  · intro env dt fuel g
    unfold Game.update
    by_cases h1 : g.state ≠ GState.PLAYING
    · rw [if_pos h1]
      exact Or.inl rfl
    · rw [if_neg h1]
      dsimp only
      by_cases h2 : (stepTimer dt g).timeLeft ≤ 0
      · rw [if_pos h2]
        exact Or.inl rfl
      · rw [if_neg h2, level_after_pass]
        rcases stepCollect_level env
            (stepSpawnCrows env fuel dt (stepSpawnPowerUps env fuel dt
              (stepSpawnCrops env fuel dt (stepPlayer env dt (stepTimer dt g))))) with
          h | ⟨hl, h⟩
        · exact Or.inl h
        · exact Or.inr ⟨hl, h⟩

set_option maxRecDepth 8000 in
set_option maxHeartbeats 2000000 in
/-- C2 (amended) witness: at the concrete state `g0adv` (level 1, goal 15,
score 14, one overlapping golden apple worth 5) the collection step advances
to level 2, resets the clock to 55, clears the crops, and grows the
cumulative goal to 15 + 20 = 35 with score 19 kept. -/
theorem level_advance_amended_witness :
    (stepCollect env0 g0adv).level = 2 ∧
    (stepCollect env0 g0adv).goal = 35 ∧
    (stepCollect env0 g0adv).timeLeft = 55 ∧
    (stepCollect env0 g0adv).maxTime = 55 ∧
    (stepCollect env0 g0adv).crops = [] ∧
    (stepCollect env0 g0adv).accumSpawn = 0 ∧
    (stepCollect env0 g0adv).score = 19 ∧
    (stepCollect env0 g0adv).obstacles.length = 3 := by
  have h := level_advance_amended.1 env0 g0adv (by with_unfolding_all decide)
    (by with_unfolding_all decide) (by with_unfolding_all decide)
  rw [h]
  with_unfolding_all decide

/-! Commutation lemmas between update stages that touch independent parts of
the state, used to compare the source's interleaved pass order with the
spec's entity-updates-then-pass-then-purge order. -/

/-- Purging crops commutes with the crow-contact step. -/
theorem cropPurge_crowHit_comm (g : Game) :
    stepCropPurge (stepCrowHit g) = stepCrowHit (stepCropPurge g) := by
  unfold stepCrowHit stepCropPurge
  dsimp only
  split_ifs <;> rfl

/-- Purging crops commutes with crow movement. -/
theorem cropPurge_crowMove_comm (env : Env) (dt : ℚ) (g : Game) :
    stepCropPurge (stepCrowMove env dt g) = stepCrowMove env dt (stepCropPurge g) := rfl

/-- Purging crops commutes with the power-up phase update. -/
theorem cropPurge_puUpdate_comm (dt : ℚ) (g : Game) :
    stepCropPurge (stepPowerUpUpdate dt g) =
      stepPowerUpUpdate dt (stepCropPurge g) := rfl

/-- Purging crops commutes with power-up collection. -/
theorem cropPurge_puCollect_comm (env : Env) (g : Game) :
    stepCropPurge (stepPowerUpCollect env g) =
      stepPowerUpCollect env (stepCropPurge g) := rfl

/-- Purging dead power-ups commutes with the crow-contact step. -/
theorem puPurge_crowHit_comm (g : Game) :
    stepPowerUpPurge (stepCrowHit g) = stepCrowHit (stepPowerUpPurge g) := by
  unfold stepCrowHit stepPowerUpPurge
  dsimp only
  split_ifs <;> rfl

/-- Purging dead power-ups commutes with crow movement. -/
theorem puPurge_crowMove_comm (env : Env) (dt : ℚ) (g : Game) :
    stepPowerUpPurge (stepCrowMove env dt g) =
      stepCrowMove env dt (stepPowerUpPurge g) := rfl

/-- Power-up collection commutes with crow movement. -/
theorem puCollect_crowMove_comm (env : Env) (dt : ℚ) (g : Game) :
    stepPowerUpCollect env (stepCrowMove env dt g) =
      stepCrowMove env dt (stepPowerUpCollect env g) := rfl

/-- Purging dead crops commutes with the crop sway update, because the sway
update preserves the `dead` flag. -/
theorem cropPurge_cropUpdate_comm (dt : ℚ) (g : Game) :
    stepCropPurge (stepCropUpdate dt g) = stepCropUpdate dt (stepCropPurge g) := by
  unfold stepCropPurge stepCropUpdate
  dsimp only
  rw [List.filter_map]
  rfl

/-- Purging dead power-ups commutes with the power-up phase update, because
the phase update preserves the `dead` flag. -/
theorem puPurge_puUpdate_comm (dt : ℚ) (g : Game) :
    stepPowerUpPurge (stepPowerUpUpdate dt g) =
      stepPowerUpUpdate dt (stepPowerUpPurge g) := by
  unfold stepPowerUpPurge stepPowerUpUpdate
  dsimp only
  rw [List.filter_map]
  rfl

/-- Power-up collection commutes with the power-up phase update: the overlap
test ignores the phase, marking commutes with the phase advance pointwise,
and the boost fold depends only on how many power-ups overlap. -/
theorem puCollect_puUpdate_comm (env : Env) (dt : ℚ) (g : Game) :
    stepPowerUpCollect env (stepPowerUpUpdate dt g) =
      stepPowerUpUpdate dt (stepPowerUpCollect env g) := by
  unfold stepPowerUpCollect stepPowerUpUpdate
  dsimp only
  rw [List.filter_map, List.foldl_map, List.map_map, List.map_map]
  congr 1
  exact List.map_congr_left (fun p _ => by
    by_cases h : aabb g.player.toEntity p.toEntity <;>
      simp [Function.comp, PowerUp.update, h])

/-- Crop collection (with its goal check) commutes with the power-up phase
update: collection never reads the power-up list and at most clears it, and
the phase update of a cleared list is empty again. -/
theorem collect_puUpdate_comm (env : Env) (dt : ℚ) (g : Game) :
    stepCollect env (stepPowerUpUpdate dt g) =
      stepPowerUpUpdate dt (stepCollect env g) := by
  unfold stepCollect stepPowerUpUpdate Game.advanceLevel
  dsimp only
  split_ifs <;> rfl

/-- Crop collection (with its goal check) commutes with crow movement:
collection never reads the crow list and at most clears it, and moving the
crows of a cleared list is empty again. -/
theorem collect_crowMove_comm (env : Env) (dt : ℚ) (g : Game) :
    stepCollect env (stepCrowMove env dt g) =
      stepCrowMove env dt (stepCollect env g) := by
  unfold stepCollect stepCrowMove Game.advanceLevel
  dsimp only
  split_ifs <;> rfl

/-- Mapping preserves emptiness of a list. -/
theorem list_isEmpty_map {α β : Type} (f : α → β) (l : List α) :
    (l.map f).isEmpty = l.isEmpty := by cases l <;> rfl

/-- Crop collection (with its goal check) commutes with the crop sway update:
the overlap test and the point values ignore the sway, marking commutes with
the sway advance pointwise, and a level advance clears the list either way. -/
theorem collect_cropUpdate_comm (env : Env) (dt : ℚ) (g : Game) :
    stepCollect env (stepCropUpdate dt g) =
      stepCropUpdate dt (stepCollect env g) := by
  have hfil : (g.crops.map (Crop.update dt)).filter
        (fun c => aabb g.player.toEntity c.toEntity) =
      (g.crops.filter (fun c => aabb g.player.toEntity c.toEntity)).map
        (Crop.update dt) := by
    rw [List.filter_map]
    exact congrArg _ (List.filter_congr (fun c _ => rfl))
  have hpoints : (fun c => (Crop.update dt c).points) = fun c : Crop => c.points := rfl
  have hmarkfun : (fun c => if aabb g.player.toEntity (Crop.update dt c).toEntity then
        { Crop.update dt c with dead := true } else Crop.update dt c) =
      (fun c => Crop.update dt (if aabb g.player.toEntity c.toEntity then
        { c with dead := true } else c)) := by
    funext c
    by_cases h : aabb g.player.toEntity c.toEntity <;> simp [Crop.update, h]
  unfold stepCollect stepCropUpdate Game.advanceLevel
  dsimp only
  simp only [hfil, list_isEmpty_map, List.map_map, Function.comp_def, hpoints, hmarkfun]
  split_ifs <;> try rfl
  all_goals simp only [List.map_map, Function.comp_def]

/-- C3: the interleavings of the source's collision/scoring pass are
unobservable: `Game.update` — which collects crops, purges and sway-updates
them, then collects, purges and phase-updates power-ups, then moves, hits,
and purges crows — computes exactly the same state as the pass order the spec
prescribes (all entity updates first, then the three collision/scoring steps
once each, then a single final purge of all dead entities), for every state,
environment, dt, and fuel. -/
theorem update_pass_order_equivalent (env : Env) (dt : ℚ) (fuel : ℕ) (g : Game) :
    Game.update env dt fuel g = Game.updateSpecOrdered env dt fuel g := by
  unfold Game.update Game.updateSpecOrdered
  by_cases h1 : g.state ≠ GState.PLAYING
  · rw [if_pos h1, if_pos h1]
  · rw [if_neg h1, if_neg h1]
    dsimp only
    by_cases h2 : (stepTimer dt g).timeLeft ≤ 0
    · rw [if_pos h2, if_pos h2]
    · rw [if_neg h2, if_neg h2]
      conv_rhs =>
        rw [collect_crowMove_comm, collect_puUpdate_comm, collect_cropUpdate_comm,
          puCollect_crowMove_comm, puCollect_puUpdate_comm,
          cropPurge_crowHit_comm, cropPurge_crowMove_comm, cropPurge_puUpdate_comm,
          cropPurge_puCollect_comm, cropPurge_cropUpdate_comm,
          puPurge_crowHit_comm, puPurge_crowMove_comm, puPurge_puUpdate_comm]

end FarmerHarvest
